import Mathlib

/-!
# GPU telemetry collector — shallow embedding

Embedding of `src/ui/src/app/api/gpu/route.ts`: the `GET` route handler and its
helpers `checkNvidiaSmi`, `getGpuStats`, `getMpsInfo`.  External command
invocations (`exec`) are modelled by a `SysEnv` record holding each command's
outcome; JavaScript string/number builtins used by the route are modelled over
`List Char` / `ℚ` (JS `number` values are modelled as exact rationals, with
distinguished `nan` / `inf` values where the route can produce them).
-/

namespace GpuRoute

/-- Numeric value of a list of decimal digit characters. -/
def digitsVal (ds : List Char) : Nat :=
  ds.foldl (fun a c => a * 10 + (c.toNat - 48)) 0

/-- Models JavaScript `parseInt(s)` (radix 10) for decimal inputs: skip leading
whitespace, optional sign, maximal run of leading decimal digits; no digits ⇒
`NaN`, modelled as `none`.  (Hex `0x` prefixes and precision loss beyond 2^53
are not modelled; no input of this route uses them.) -/
def parseIntJs (s : String) : Option Int :=
  let l := s.data.dropWhile Char.isWhitespace
  match l with
  | '-' :: rest =>
    let ds := rest.takeWhile Char.isDigit
    if ds.isEmpty then none else some (-(digitsVal ds : Int))
  | '+' :: rest =>
    let ds := rest.takeWhile Char.isDigit
    if ds.isEmpty then none else some (digitsVal ds : Int)
  | _ =>
    let ds := l.takeWhile Char.isDigit
    if ds.isEmpty then none else some (digitsVal ds : Int)

/-- Models JavaScript `parseFloat(s)` for plain decimal inputs: skip leading
whitespace, optional sign, digits, optional `.` and fraction digits; no digits
at all ⇒ `NaN`, modelled as `none`.  (Exponent notation is not modelled; the
route only parses fixed-point power values.) -/
def parseFloatJs (s : String) : Option ℚ :=
  let l := s.data.dropWhile Char.isWhitespace
  let p : ℤ × List Char :=
    match l with
    | '-' :: rest => (-1, rest)
    | '+' :: rest => (1, rest)
    | _ => (1, l)
  let intDs := p.2.takeWhile Char.isDigit
  let rest := p.2.drop intDs.length
  let fracDs : List Char :=
    match rest with
    | '.' :: r => r.takeWhile Char.isDigit
    | _ => []
  if intDs.isEmpty && fracDs.isEmpty then none
  else
    some (mkRat (p.1 * (digitsVal intDs * 10 ^ fracDs.length + digitsVal fracDs : ℕ))
      (10 ^ fracDs.length))

/-- Models JavaScript `String.prototype.trim()`. -/
def jsTrim (s : String) : String :=
  ⟨((s.data.dropWhile Char.isWhitespace).reverse.dropWhile Char.isWhitespace).reverse⟩

/-- Worker for `jsSplit`; `fuel` bounds the recursion (initialised to the text
length, which suffices since each step consumes at least one character). -/
def splitGo (sep : List Char) : Nat → List Char → List Char → List (List Char)
  | _, [], acc => [acc.reverse]
  | 0, l, acc => [acc.reverse ++ l]
  | fuel + 1, c :: rest, acc =>
    if sep.isPrefixOf (c :: rest) then
      acc.reverse :: splitGo sep fuel ((c :: rest).drop sep.length) []
    else
      splitGo sep fuel rest (c :: acc)

/-- Models JavaScript `String.prototype.split(sep)` for a non-empty string
separator (the route only splits on `", "`, `"\n"` and `":"`). -/
def jsSplit (s sep : String) : List String :=
  if sep.data.isEmpty then [s]
  else (splitGo sep.data s.data.length s.data []).map (fun l => ⟨l⟩)

/-- Does `l` contain `t` as a contiguous sublist? -/
def containsSubAux (t : List Char) : List Char → Bool
  | [] => t.isEmpty
  | c :: rest => t.isPrefixOf (c :: rest) || containsSubAux t rest

/-- Models JavaScript `s.includes(t)`. -/
def jsIncludes (s t : String) : Bool :=
  containsSubAux t.data s.data

/-- Models `Math.round(x / y)` for integer `x` and nonzero integer `y` (every
`Math.round` in the route is applied to such a quotient, computed exactly
here): JS rounds half toward `+∞`, so the result is
`⌊x/y + 1/2⌋ = ⌊(2x + y) / (2y)⌋`, and `Int.fdiv` is floor division. -/
def jsRoundDiv (x y : Int) : Int :=
  Int.fdiv (2 * x + y) (2 * y)

/-- If `l` starts with `label` followed by at least one whitespace character and
then at least one decimal digit, return the maximal digit run (the capture
group of the regex `/label\s+(\d+)/` anchored at this position). -/
def grabCount (label : List Char) (l : List Char) : Option (List Char) :=
  if label.isPrefixOf l then
    let rest := l.drop label.length
    let ws := rest.takeWhile Char.isWhitespace
    if ws.isEmpty then none
    else
      let ds := (rest.drop ws.length).takeWhile Char.isDigit
      if ds.isEmpty then none else some ds
  else none

/-- Leftmost match of `/label\s+(\d+)/` over the text. -/
def findLabeledAux (label : List Char) : List Char → Option (List Char)
  | [] => none
  | c :: rest =>
    match grabCount label (c :: rest) with
    | some ds => some ds
    | none => findLabeledAux label rest

/-- Models `text.match(/label\s+(\d+)/)?.[1]`: the first capture group of the
leftmost match, if any. -/
def findLabeled (label text : String) : Option String :=
  (findLabeledAux label.data text.data).map (fun ds => ⟨ds⟩)

/-- Models `parseInt(text.match(/label\s+(\d+)/)?.[1] || '0')`: an unmatched
label defaults to `'0'`; the parse of a pure digit string never yields `NaN`,
so the outer `getD 0` is never the `NaN` case on reachable inputs. -/
def pagesCount (label text : String) : Int :=
  (parseIntJs ((findLabeled label text).getD "0")).getD 0

/-- The `type` tag of a GPU record (`'cuda' | 'mps'`). -/
inductive GpuType where
  | cuda
  | mps
deriving DecidableEq, Repr

/-- Value of a telemetry field as produced by the route: a finite JS number
(`num`), JS `NaN` (from `parseInt`/`parseFloat` on non-numeric text or
arithmetic on such a value), JS `Infinity` (division by zero), the literal
string `'N/A'` (`na`, the explicit "unknown" marker), or the field being absent
from the object (`omitted`). -/
inductive FieldVal where
  | num (q : ℚ)
  | nan
  | inf
  | na
  | omitted
deriving DecidableEq, Repr

/-- A normalized GPU record as built by `getGpuStats` (cuda) or `getMpsInfo`
(mps).  `type` is `none` on a freshly parsed cuda record (the tag is added by
`GET` via object spread); `driverVersion`/`model` are `none` where the source
object lacks the key; `cores := .omitted` models the key being absent. -/
structure GpuRecord where
  index : FieldVal
  name : String
  driverVersion : Option String
  temperature : FieldVal
  utilGpu : FieldVal
  utilMemory : FieldVal
  memTotal : FieldVal
  memFree : FieldVal
  memUsed : FieldVal
  powerDraw : FieldVal
  powerLimit : FieldVal
  clockGraphics : FieldVal
  clockMemory : FieldVal
  fanSpeed : FieldVal
  type : Option GpuType
  model : Option String
  cores : FieldVal
deriving DecidableEq, Repr

/-- The JSON response of the route: body fields plus the HTTP status code
(`NextResponse.json` defaults to 200; the catch branch passes 500). -/
structure TelemetrySnapshot where
  hasNvidiaSmi : Bool
  hasMps : Bool
  platform : String
  gpus : List GpuRecord
  error : Option String
  status : Nat
deriving DecidableEq, Repr

/-- Outcomes of the external command invocations the route performs.
`nvidiaProbe` is whether the capability probe (`nvidia-smi -L` on Windows,
`which nvidia-smi` elsewhere) exits successfully; `nvidiaQuery` is the
`nvidia-smi --query-gpu=...` result (`ok stdout` or `error message` when the
exec throws); the remaining fields are `some stdout` when the command succeeds
and `none` when it throws. -/
structure SysEnv where
  platform : String
  nvidiaProbe : Bool
  nvidiaQuery : Except String String
  sysctlBrand : Option String
  sysctlMemsize : Option String
  vmStat : Option String
  systemProfiler : Option String
deriving Repr

/-- `checkNvidiaSmi`: both OS branches run one probe command inside
`try/catch`, returning `true` on success and `false` on failure, so the result
is the probe outcome regardless of `isWindows`. -/
def checkNvidiaSmi (_isWindows : Bool) (env : SysEnv) : Bool :=
  env.nvidiaProbe

/-- `parseInt(item)` as a record field: non-numeric text yields JS `NaN`. -/
def intField (s : String) : FieldVal :=
  match parseIntJs s with
  | some n => .num (n : ℚ)
  | none => .nan

/-- `parseFloat(item)` as a record field. -/
def floatField (s : String) : FieldVal :=
  match parseFloatJs s with
  | some x => .num x
  | none => .nan

/-- `parseInt(fanSpeed) || 0`: `NaN` (falsy) is replaced by `0`; a parsed `0`
is also falsy but `0 || 0` is still `0`. -/
def fanField (s : String) : FieldVal :=
  .num (((parseIntJs s).getD 0 : ℤ) : ℚ)

/-- `line.split(', ').map(item => item.trim())`. -/
def gpuLineItems (line : String) : List String :=
  (jsSplit line ", ").map jsTrim

/-- Parsing of one CSV line of `nvidia-smi` query output into a record
(the `map` body in `getGpuStats`).  Destructuring past the end of the split
array yields `undefined` in JS; for the numeric fields `parseInt(undefined)`
is `NaN` exactly like `parseInt("")`, so a missing item is modelled as `""`. -/
def parseGpuLine (line : String) : GpuRecord :=
  { index := intField ((gpuLineItems line).getD 0 ""),
    name := (gpuLineItems line).getD 1 "",
    driverVersion := some ((gpuLineItems line).getD 2 ""),
    temperature := intField ((gpuLineItems line).getD 3 ""),
    utilGpu := intField ((gpuLineItems line).getD 4 ""),
    utilMemory := intField ((gpuLineItems line).getD 5 ""),
    memTotal := intField ((gpuLineItems line).getD 6 ""),
    memFree := intField ((gpuLineItems line).getD 7 ""),
    memUsed := intField ((gpuLineItems line).getD 8 ""),
    powerDraw := floatField ((gpuLineItems line).getD 9 ""),
    powerLimit := floatField ((gpuLineItems line).getD 10 ""),
    clockGraphics := intField ((gpuLineItems line).getD 11 ""),
    clockMemory := intField ((gpuLineItems line).getD 12 ""),
    fanSpeed := fanField ((gpuLineItems line).getD 13 ""),
    type := none,
    model := none,
    cores := .omitted }

/-- `getGpuStats`, as a function of the query command's stdout:
`stdout.trim().split('\n').map(line => ...)`. -/
def getGpuStats (stdout : String) : List GpuRecord :=
  (jsSplit (jsTrim stdout) "\n").map parseGpuLine

/-- The `cores` field of the mps record: `none` (exec of `system_profiler`
throws) or a missing `':'` (`split(':')[1]` is `undefined`, so `.trim()`
throws a TypeError) select the source's fallback record, which omits the key;
otherwise `parseInt(gpuCores.split(':')[1].trim())`. -/
def coresField : Option String → FieldVal
  | none => .omitted
  | some out =>
    match (jsSplit out ":").get? 1 with
    | none => .omitted
    | some s =>
      match parseIntJs (jsTrim s) with
      | none => .nan
      | some n => .num (n : ℚ)

/-- `utilization.memory` of the mps record.  `totalMemoryGB` is always of JS
type `number` (possibly `NaN`), so the source guard
`typeof usedMemoryMB === 'number' && typeof totalMemoryGB === 'number'` holds
exactly when vm_stat succeeded (`used = some u`).  Then
`Math.round((used / (totalGB * 1024)) * 100)`, computed here exactly as
`Math.round((used * 100) / (totalGB * 1024))` (the same rational): `NaN` total
gives `NaN`; a zero total gives a division by zero — `Infinity` when
`used > 0` (`used` is a sum of nonnegative page counts, hence never negative),
`NaN` when `used = 0`. -/
def mpsMemUtil (used totalGB : Option Int) : FieldVal :=
  match used with
  | none => .na
  | some u =>
    match totalGB with
    | none => .nan
    | some g =>
      if g = 0 then (if u = 0 then .nan else .inf)
      else .num ((jsRoundDiv (u * 100) (g * 1024) : ℤ) : ℚ)

/-- The mps `GpuRecord` built by `getMpsInfo` once the Apple-Silicon brand
check passed and `hw.memsize` was read.  The source has two literal record
expressions (with and without the `cores` key) that differ only in that key;
`coresField` selects between them. -/
def mkMpsRecord (brandOut memInfo : String) (vmStat systemProfiler : Option String) :
    GpuRecord :=
  let totalMemoryGB : Option Int :=
    (parseIntJs (jsTrim memInfo)).map (fun b => jsRoundDiv b (1024 * 1024 * 1024))
  let usedMemoryMB : Option Int :=
    vmStat.map (fun t =>
      jsRoundDiv ((pagesCount "Pages active:" t + pagesCount "Pages wired down:" t +
        pagesCount "Pages inactive:" t) * 4096) (1024 * 1024))
  let freeMemoryMB : Option Int :=
    vmStat.map (fun t =>
      jsRoundDiv (pagesCount "Pages free:" t * 4096) (1024 * 1024))
  { index := .num 0,
    name := "Apple Silicon GPU",
    driverVersion := none,
    temperature := .na,
    utilGpu := .na,
    utilMemory := mpsMemUtil usedMemoryMB totalMemoryGB,
    memTotal :=
      (match totalMemoryGB with
       | none => .nan
       | some g => .num ((g * 1024 : ℤ) : ℚ)),
    memFree :=
      (match freeMemoryMB with
       | none => .na
       | some f => .num (f : ℚ)),
    memUsed :=
      (match usedMemoryMB with
       | none => .na
       | some u => .num (u : ℚ)),
    powerDraw := .na,
    powerLimit := .na,
    clockGraphics := .na,
    clockMemory := .na,
    fanSpeed := .na,
    type := some .mps,
    model := some (jsTrim brandOut),
    cores := coresField systemProfiler }

/-- `getMpsInfo`: `null` when the brand query throws (the function's own
`catch`), when the brand string does not include `'Apple M'`, or when the
`hw.memsize` query throws; otherwise one mps record.  A vm_stat failure only
degrades used/free memory to `'N/A'`; a `system_profiler` failure only drops
the `cores` key. -/
def getMpsInfo (env : SysEnv) : Option GpuRecord :=
  match env.sysctlBrand with
  | none => none
  | some brandOut =>
    if !(jsIncludes brandOut "Apple M") then none
    else
      match env.sysctlMemsize with
      | none => none
      | some memInfo => some (mkMpsRecord brandOut memInfo env.vmStat env.systemProfiler)

/-- The route handler `GET`.  The only statement inside the `try` block that
can throw is the `nvidia-smi` query inside `getGpuStats` (reached only when
the probe succeeded); everything else handles its own failures.  The catch
branch answers HTTP 500 with all-false flags, empty gpu list and a message
prefixed `"Failed to fetch GPU stats: "`. -/
def GET (env : SysEnv) : TelemetrySnapshot :=
  match checkNvidiaSmi (env.platform = "win32") env, env.nvidiaQuery with
  | true, Except.error e =>
    { hasNvidiaSmi := false,
      hasMps := false,
      platform := env.platform,
      gpus := [],
      error := some ("Failed to fetch GPU stats: " ++ e),
      status := 500 }
  | hasNvidiaSmi, q =>
    let nvidiaGpus : List GpuRecord :=
      if hasNvidiaSmi then
        (getGpuStats (q.toOption.getD "")).map (fun g => { g with type := some GpuType.cuda })
      else []
    let mpsInfo : Option GpuRecord :=
      if env.platform = "darwin" then getMpsInfo env else none
    { hasNvidiaSmi := hasNvidiaSmi,
      hasMps := mpsInfo.isSome,
      platform := env.platform,
      gpus := nvidiaGpus ++ mpsInfo.toList,
      error := none,
      status := 200 }

/-- Sample `vm_stat` output used as a concrete test environment. -/
def appleVmText : String :=
  "Mach Virtual Memory Statistics: (page size of 16384 bytes)\nPages free: 100000.\nPages active: 200000.\nPages inactive: 50000.\nPages wired down: 80000."

/-- Sample `system_profiler` line used as a concrete test environment. -/
def appleProfilerText : String :=
  "      Total Number of Cores: 19"

/-- A concrete macOS Apple-Silicon environment (no nvidia tooling). -/
def appleEnv : SysEnv :=
  { platform := "darwin",
    nvidiaProbe := false,
    nvidiaQuery := Except.error "command not found",
    sysctlBrand := some "Apple M2 Pro",
    sysctlMemsize := some "17179869184",
    vmStat := some appleVmText,
    systemProfiler := some appleProfilerText }

/-- The same macOS machine with an Intel CPU brand string. -/
def intelEnv : SysEnv :=
  { appleEnv with sysctlBrand := some "Intel Core i9" }

/-- A concrete Linux environment with no GPU tooling at all. -/
def linuxEnv : SysEnv :=
  { platform := "linux",
    nvidiaProbe := false,
    nvidiaQuery := Except.error "command not found",
    sysctlBrand := none,
    sysctlMemsize := none,
    vmStat := none,
    systemProfiler := none }

/-- Helper: a `some` result of `getMpsInfo` comes from `mkMpsRecord` applied to
a successfully read brand string (containing `'Apple M'`) and memsize output. -/
theorem getMpsInfo_eq_mk {env : SysEnv} {r : GpuRecord} (h : getMpsInfo env = some r) :
    ∃ brandOut memInfo,
      env.sysctlBrand = some brandOut ∧
      env.sysctlMemsize = some memInfo ∧
      jsIncludes brandOut "Apple M" = true ∧
      r = mkMpsRecord brandOut memInfo env.vmStat env.systemProfiler := by
  unfold getMpsInfo at h
  split at h
  next => exact Option.noConfusion h
  next brandOut heqb =>
    split at h
    next => exact Option.noConfusion h
    next hinc =>
      split at h
      next => exact Option.noConfusion h
      next memInfo heqm =>
        injection h with h2
        refine ⟨brandOut, memInfo, heqb, heqm, ?_, h2.symm⟩
        cases hj : jsIncludes brandOut "Apple M" with
        | true => rfl
        | false => exact absurd (by rw [hj]; rfl) hinc

/-- Helper: every record built by `getMpsInfo` is tagged `mps`. -/
theorem getMpsInfo_type {env : SysEnv} {r : GpuRecord} (h : getMpsInfo env = some r) :
    r.type = some GpuType.mps := by
  obtain ⟨b, m, -, -, -, rfl⟩ := getMpsInfo_eq_mk h
  rfl

/-- Helper: every element of the cuda-tagged list built in `GET` is tagged
`cuda`. -/
theorem type_of_mem_cudaTag {l : List GpuRecord} {g : GpuRecord}
    (h : g ∈ l.map (fun x => { x with type := some GpuType.cuda })) :
    g.type = some GpuType.cuda := by
  obtain ⟨a, -, rfl⟩ := List.mem_map.mp h
  rfl

/-- Helper: the cuda-tagged list contains no mps-tagged record. -/
theorem cudaTag_countP_mps (l : List GpuRecord) :
    (l.map (fun x => { x with type := some GpuType.cuda })).countP
      (fun g => decide (g.type = some GpuType.mps)) = 0 := by
  rw [List.countP_map]
  induction l with
  | nil => rfl
  | cons a l ih => simp [List.countP_cons, ih]

/-- Helper: appending a nonempty error prefix yields a nonempty string. -/
theorem errorPrefix_append_ne_empty (e : String) :
    ("Failed to fetch GPU stats: " ++ e) ≠ "" := by
  intro he
  have h2 := congrArg String.data he
  simp [String.append] at h2

/-- C1: the collector never raises to the caller — every execution returns a
well-formed snapshot: either a normal (status 200, no error) response, or, when
the one throwing step (the nvidia query after a successful probe) fails, the
top-level catch's response with `hasNvidiaSmi = false`, `hasMps = false`,
`gpus = []`, a non-empty error string, and status 500. -/
theorem c1_top_level_catch (env : SysEnv) :
    ((GET env).status = 200 ∧ (GET env).error = none) ∨
    ((GET env).hasNvidiaSmi = false ∧ (GET env).hasMps = false ∧
      (GET env).gpus = [] ∧ (∃ s, (GET env).error = some s ∧ s ≠ "") ∧
      (GET env).status = 500) := by
  obtain ⟨p, pr, q, sb, sm, vs, sp⟩ := env
  cases pr with
  | false =>
    cases q with
    | ok s => exact Or.inl ⟨rfl, rfl⟩
    | error e => exact Or.inl ⟨rfl, rfl⟩
  | true =>
    cases q with
    | ok s => exact Or.inl ⟨rfl, rfl⟩
    | error e =>
      exact Or.inr ⟨rfl, rfl, rfl,
        ⟨"Failed to fetch GPU stats: " ++ e, rfl, errorPrefix_append_ne_empty e⟩, rfl⟩

/-- C2 (counterexample): the claim says a non-numeric token in a numeric
column of a vendor-A output line makes the corresponding field the unknown
marker (`'N/A'`); but `getGpuStats` parses with JS `parseInt`, so the
temperature column `"abc"` yields `NaN`, which is not the `'N/A'` marker. -/
theorem c2_vendor_a_counterexample :
    parseIntJs "abc" = none ∧
    (parseGpuLine
      "0, Test GPU, 525.60, abc, 10, 5, 8192, 6000, 2192, 50.5, 150.0, 1500, 7000, 30").temperature
      = FieldVal.nan ∧
    FieldVal.nan ≠ FieldVal.na := by decide

/-- C2 (amended): the explicit `'N/A'` unknown marker is used on the mps path
for the fields the platform does not expose (gpu utilization, temperature,
power draw/limit, clocks, fan speed are always `'N/A'` there); on the vendor-A
(cuda) path, a numeric column holding a non-numeric or absent token parses to
JS `NaN` (shown for the temperature column), not the `'N/A'` marker. -/
theorem c2_unknown_marker_amended :
    (∀ env : SysEnv, ∀ r : GpuRecord, getMpsInfo env = some r →
      r.utilGpu = FieldVal.na ∧ r.temperature = FieldVal.na ∧
      r.powerDraw = FieldVal.na ∧ r.powerLimit = FieldVal.na ∧
      r.clockGraphics = FieldVal.na ∧ r.clockMemory = FieldVal.na ∧
      r.fanSpeed = FieldVal.na) ∧
    (∀ line : String, parseIntJs ((gpuLineItems line).getD 3 "") = none →
      (parseGpuLine line).temperature = FieldVal.nan ∧
      (parseGpuLine line).temperature ≠ FieldVal.na) := by
  constructor
  · intro env r h
    obtain ⟨b, m, -, -, -, rfl⟩ := getMpsInfo_eq_mk h
    exact ⟨rfl, rfl, rfl, rfl, rfl, rfl, rfl⟩
  · intro line h
    have ht : (parseGpuLine line).temperature = intField ((gpuLineItems line).getD 3 "") := rfl
    rw [ht]
    unfold intField
    rw [h]
    exact ⟨rfl, by decide⟩

/-- C2 (amended) witness: the amended claim instantiated on a concrete bad
line and the concrete Apple-Silicon environment. -/
theorem c2_unknown_marker_amended_witness :
    (parseGpuLine
      "0, GPU, 525.60, oops, 10, 5, 8192, 6000, 2192, 50.5, 150.0, 1500, 7000, 30").temperature
      = FieldVal.nan ∧
    (mkMpsRecord "Apple M2 Pro" "17179869184" (some appleVmText)
      (some appleProfilerText)).temperature = FieldVal.na := by
  refine ⟨(c2_unknown_marker_amended.2 _ (by decide)).1, ?_⟩
  exact (c2_unknown_marker_amended.1 appleEnv _ rfl).2.1

/-- C3: parsing the sample vendor-A line yields exactly the claimed record:
integer-parsed fields for index, temperature, utilizations, memory and clocks,
float-parsed power draw (`50.5 = 101/2`) and limit (`150.0 = 150`), fan speed
`30`, name and driver version as strings. -/
theorem c3_sample_line :
    parseGpuLine "0, Test GPU, 525.60, 45, 10, 5, 8192, 6000, 2192, 50.5, 150.0, 1500, 7000, 30" =
    { index := .num 0,
      name := "Test GPU",
      driverVersion := some "525.60",
      temperature := .num 45,
      utilGpu := .num 10,
      utilMemory := .num 5,
      memTotal := .num 8192,
      memFree := .num 6000,
      memUsed := .num 2192,
      powerDraw := .num (mkRat 101 2),
      powerLimit := .num 150,
      clockGraphics := .num 1500,
      clockMemory := .num 7000,
      fanSpeed := .num 30,
      type := none,
      model := none,
      cores := .omitted } := by decide

/-- C4: when the capability probe fails, the snapshot has
`hasNvidiaSmi = false`, no cuda-tagged record, and the nvidia query command is
never consulted — `GET` returns the same snapshot whatever that query would
have produced. -/
theorem c4_probe_fail (env : SysEnv) (h : env.nvidiaProbe = false) :
    (GET env).hasNvidiaSmi = false ∧
    (∀ g ∈ (GET env).gpus, g.type ≠ some GpuType.cuda) ∧
    (∀ q : Except String String, GET { env with nvidiaQuery := q } = GET env) := by
  obtain ⟨p, pr, q, sb, sm, vs, sp⟩ := env
  subst h
  refine ⟨rfl, ?_, fun q2 => rfl⟩
  intro g hg
  have hg2 : g ∈ ((if p = "darwin"
      then getMpsInfo ⟨p, false, q, sb, sm, vs, sp⟩ else none).toList) := hg
  intro hc
  by_cases hp : p = "darwin"
  · rw [if_pos hp] at hg2
    cases hm : getMpsInfo ⟨p, false, q, sb, sm, vs, sp⟩ with
    | none => rw [hm] at hg2; exact (List.not_mem_nil g) hg2
    | some r =>
      rw [hm] at hg2
      have hr : g = r := List.mem_singleton.mp hg2
      have := getMpsInfo_type hm
      rw [← hr, hc] at this
      exact Option.noConfusion this (fun h3 => GpuType.noConfusion h3)
  · rw [if_neg hp] at hg2
    exact (List.not_mem_nil g) hg2

/-- C4 witness: the probe-failure theorem at the concrete Apple environment
(whose probe fails) and one concrete alternative query outcome. -/
theorem c4_probe_fail_witness :
    (GET appleEnv).hasNvidiaSmi = false ∧
    GET { appleEnv with nvidiaQuery := Except.ok "ignored" } = GET appleEnv := by
  refine ⟨(c4_probe_fail appleEnv rfl).1, ?_⟩
  exact (c4_probe_fail appleEnv rfl).2.2 (Except.ok "ignored")

/-- C5: on every platform other than `"darwin"`, the snapshot has
`hasMps = false` and no mps-tagged record, whatever the other tools did. -/
theorem c5_non_mac (env : SysEnv) (h : env.platform ≠ "darwin") :
    (GET env).hasMps = false ∧
    ∀ g ∈ (GET env).gpus, g.type ≠ some GpuType.mps := by
  obtain ⟨p, pr, q, sb, sm, vs, sp⟩ := env
  cases pr with
  | true =>
    cases q with
    | error e => exact ⟨rfl, fun g hg => absurd hg (List.not_mem_nil g)⟩
    | ok s =>
      constructor
      · show (if p = "darwin"
            then getMpsInfo ⟨p, true, Except.ok s, sb, sm, vs, sp⟩ else none).isSome = false
        rw [if_neg h]
        rfl
      · intro g hg hc
        have hg2 : g ∈ ((getGpuStats s).map (fun x => { x with type := some GpuType.cuda }) ++
            (if p = "darwin"
              then getMpsInfo ⟨p, true, Except.ok s, sb, sm, vs, sp⟩ else none).toList) := hg
        rw [if_neg h] at hg2
        rcases List.mem_append.mp hg2 with h3 | h3
        · have := type_of_mem_cudaTag h3
          rw [hc] at this
          exact Option.noConfusion this (fun h4 => GpuType.noConfusion h4)
        · exact (List.not_mem_nil g) h3
  | false =>
    constructor
    · show (if p = "darwin"
          then getMpsInfo ⟨p, false, q, sb, sm, vs, sp⟩ else none).isSome = false
      rw [if_neg h]
      rfl
    · intro g hg hc
      have hg2 : g ∈ (([] : List GpuRecord) ++
          (if p = "darwin"
            then getMpsInfo ⟨p, false, q, sb, sm, vs, sp⟩ else none).toList) := hg
      rw [if_neg h] at hg2
      rcases List.mem_append.mp hg2 with h3 | h3
      · exact (List.not_mem_nil g) h3
      · exact (List.not_mem_nil g) h3

/-- C5 witness: the non-macOS theorem at the concrete Linux environment. -/
theorem c5_non_mac_witness : (GET linuxEnv).hasMps = false :=
  (c5_non_mac linuxEnv (by decide)).1

/-- C6: on macOS (and with the nvidia path not throwing), brand string
`"Apple M2 Pro"` yields `hasMps = true` and exactly one mps-tagged record,
while `"Intel Core i9"` yields `hasMps = false`, no mps record and no error. -/
theorem c6_brand_gate :
    (∀ env : SysEnv, env.platform = "darwin" →
      env.sysctlBrand = some "Apple M2 Pro" →
      (∃ m, env.sysctlMemsize = some m) →
      (env.nvidiaProbe = true → ∃ s, env.nvidiaQuery = Except.ok s) →
      (GET env).hasMps = true ∧
      (GET env).gpus.countP (fun g => decide (g.type = some GpuType.mps)) = 1) ∧
    (∀ env : SysEnv, env.platform = "darwin" →
      env.sysctlBrand = some "Intel Core i9" →
      (env.nvidiaProbe = true → ∃ s, env.nvidiaQuery = Except.ok s) →
      (GET env).hasMps = false ∧
      (∀ g ∈ (GET env).gpus, g.type ≠ some GpuType.mps) ∧
      (GET env).error = none) := by
  constructor
  · intro env hplat hbrand hmem hq
    obtain ⟨p, pr, q, sb, sm, vs, sp⟩ := env
    have hp2 : p = "darwin" := hplat
    subst hp2
    have hb2 : sb = some "Apple M2 Pro" := hbrand
    subst hb2
    obtain ⟨m, hm⟩ := hmem
    have hm2 : sm = some m := hm
    subst hm2
    cases pr with
    | false => exact ⟨rfl, rfl⟩
    | true =>
      obtain ⟨s, hs⟩ := hq rfl
      have hs2 : q = Except.ok s := hs
      subst hs2
      refine ⟨rfl, ?_⟩
      show ((getGpuStats s).map (fun x : GpuRecord => { x with type := some GpuType.cuda }) ++
          [mkMpsRecord "Apple M2 Pro" m vs sp]).countP
            (fun g : GpuRecord => decide (g.type = some GpuType.mps)) = 1
      rw [List.countP_append, cudaTag_countP_mps]
      rfl
  · intro env hplat hbrand hq
    obtain ⟨p, pr, q, sb, sm, vs, sp⟩ := env
    have hp2 : p = "darwin" := hplat
    subst hp2
    have hb2 : sb = some "Intel Core i9" := hbrand
    subst hb2
    cases pr with
    | false =>
      refine ⟨rfl, ?_, rfl⟩
      intro g hg
      exact absurd hg (List.not_mem_nil g)
    | true =>
      obtain ⟨s, hs⟩ := hq rfl
      have hs2 : q = Except.ok s := hs
      subst hs2
      refine ⟨rfl, ?_, rfl⟩
      intro g hg hc
      have hg2 : g ∈ ((getGpuStats s).map (fun x => { x with type := some GpuType.cuda }) ++
          ([] : List GpuRecord)) := hg
      rcases List.mem_append.mp hg2 with h3 | h3
      · have := type_of_mem_cudaTag h3
        rw [hc] at this
        exact Option.noConfusion this (fun h4 => GpuType.noConfusion h4)
      · exact absurd h3 (List.not_mem_nil g)

/-- C6 witness: the brand-gate theorem at the concrete Apple and Intel macOS
environments. -/
theorem c6_brand_gate_witness :
    (GET appleEnv).hasMps = true ∧
    (GET appleEnv).gpus.countP (fun g => decide (g.type = some GpuType.mps)) = 1 ∧
    (GET intelEnv).hasMps = false ∧
    (GET intelEnv).error = none := by
  have h1 := c6_brand_gate.1 appleEnv rfl rfl ⟨"17179869184", rfl⟩
    (fun hpr => absurd hpr (by decide))
  have h2 := c6_brand_gate.2 intelEnv rfl rfl (fun hpr => absurd hpr (by decide))
  exact ⟨h1.1, h1.2, h2.1, h2.2.2⟩

/-- C7: an empty fan-speed field yields `fan.speed = 0`, not the `'N/A'`
unknown marker (`parseInt('') || 0` evaluates to `0`). -/
theorem c7_empty_fan (line : String) (h : (gpuLineItems line).getD 13 "" = "") :
    (parseGpuLine line).fanSpeed = FieldVal.num 0 ∧
    (parseGpuLine line).fanSpeed ≠ FieldVal.na := by
  have hf : (parseGpuLine line).fanSpeed = fanField ((gpuLineItems line).getD 13 "") := rfl
  rw [hf, h]
  exact ⟨by decide, by decide⟩

/-- C7 witness: the sample line with an empty trailing fan-speed field. -/
theorem c7_empty_fan_witness :
    (parseGpuLine
      "0, Test GPU, 525.60, 45, 10, 5, 8192, 6000, 2192, 50.5, 150.0, 1500, 7000, ").fanSpeed
      = FieldVal.num 0 :=
  (c7_empty_fan "0, Test GPU, 525.60, 45, 10, 5, 8192, 6000, 2192, 50.5, 150.0, 1500, 7000, "
    (by decide)).1

/-- C8: the mps record's total memory is `Math.round(bytes / 2^30) * 1024` MB;
in particular `hw.memsize = 17179869184` yields `memory.total = 16384`. -/
theorem c8_mem_total (env : SysEnv) (m : String) (b : ℤ) (r : GpuRecord)
    (h1 : env.sysctlMemsize = some m)
    (h2 : parseIntJs (jsTrim m) = some b)
    (h3 : getMpsInfo env = some r) :
    r.memTotal = FieldVal.num ((jsRoundDiv b (1024 * 1024 * 1024) * 1024 : ℤ) : ℚ) ∧
    (b = 17179869184 → r.memTotal = FieldVal.num 16384) := by
  obtain ⟨brandOut, memInfo, hb, hm, -, rfl⟩ := getMpsInfo_eq_mk h3
  rw [h1] at hm
  injection hm with hm2
  subst hm2
  have hmain : (mkMpsRecord brandOut m env.vmStat env.systemProfiler).memTotal
      = FieldVal.num ((jsRoundDiv b (1024 * 1024 * 1024) * 1024 : ℤ) : ℚ) := by
    show (match (parseIntJs (jsTrim m)).map (fun x => jsRoundDiv x (1024 * 1024 * 1024)) with
      | none => FieldVal.nan
      | some g => FieldVal.num ((g * 1024 : ℤ) : ℚ))
      = FieldVal.num ((jsRoundDiv b (1024 * 1024 * 1024) * 1024 : ℤ) : ℚ)
    rw [h2]
    rfl
  refine ⟨hmain, fun hb17 => ?_⟩
  rw [hmain, hb17]
  decide

/-- C8 witness: the memory-total theorem at the concrete Apple environment with
`hw.memsize = 17179869184`. -/
theorem c8_mem_total_witness :
    (getMpsInfo appleEnv).isSome = true ∧
    (mkMpsRecord "Apple M2 Pro" "17179869184" (some appleVmText)
      (some appleProfilerText)).memTotal = FieldVal.num 16384 := by
  refine ⟨rfl, ?_⟩
  exact (c8_mem_total appleEnv "17179869184" 17179869184 _ rfl (by decide) rfl).2 rfl

/-- C9: a vm_stat failure does not drop the mps record — the record is still
emitted, with used/free memory set to the `'N/A'` unknown marker; and within
successful vm_stat output, an unmatched label defaults to `0` pages. -/
theorem c9_vmstat_resilience :
    (∀ env : SysEnv, ∀ r : GpuRecord, getMpsInfo env = some r →
      (getMpsInfo { env with vmStat := none }).isSome = true ∧
      ∀ s : GpuRecord, getMpsInfo { env with vmStat := none } = some s →
        s.memUsed = FieldVal.na ∧ s.memFree = FieldVal.na) ∧
    (∀ label text : String, findLabeled label text = none →
      pagesCount label text = 0) := by
  constructor
  · intro env r h
    obtain ⟨p, pr, q, sb, sm, vs, sp⟩ := env
    obtain ⟨brandOut, memInfo, hb, hm, hinc, -⟩ := getMpsInfo_eq_mk h
    have hb2 : sb = some brandOut := hb
    subst hb2
    have hm2 : sm = some memInfo := hm
    subst hm2
    have hkey : getMpsInfo ⟨p, pr, q, some brandOut, some memInfo, none, sp⟩
        = some (mkMpsRecord brandOut memInfo none sp) := by
      simp only [getMpsInfo, hinc, Bool.not_true, Bool.false_eq_true, if_false]
    constructor
    · show (getMpsInfo ⟨p, pr, q, some brandOut, some memInfo, none, sp⟩).isSome = true
      rw [hkey]
      rfl
    · intro s hs
      have hs2 : getMpsInfo ⟨p, pr, q, some brandOut, some memInfo, none, sp⟩ = some s := hs
      rw [hkey] at hs2
      injection hs2 with hs3
      rw [← hs3]
      exact ⟨rfl, rfl⟩
  · intro label text h
    unfold pagesCount
    rw [h]
    rfl

/-- C9 witness: the vm_stat-resilience theorem at the concrete Apple
environment, and a concrete text with no matching label. -/
theorem c9_vmstat_resilience_witness :
    (getMpsInfo { appleEnv with vmStat := none }).isSome = true ∧
    pagesCount "Pages active:" "no such label here" = 0 := by
  refine ⟨(c9_vmstat_resilience.1 appleEnv _ rfl).1, ?_⟩
  exact c9_vmstat_resilience.2 "Pages active:" "no such label here" (by decide)

/-- Helper for C10: in a normal snapshot whose cuda part is all cuda-tagged and
whose optional mps record is mps-tagged, the mps flag holds iff an mps-tagged
record is present. -/
theorem hasMps_iff_mem_aux (nvidia : List GpuRecord)
    (hnv : ∀ g ∈ nvidia, g.type = some GpuType.cuda)
    (mpsOpt : Option GpuRecord)
    (hmps : ∀ r, mpsOpt = some r → r.type = some GpuType.mps) :
    (mpsOpt.isSome = true ↔
      ∃ g ∈ nvidia ++ mpsOpt.toList, g.type = some GpuType.mps) := by
  constructor
  · intro h1
    obtain ⟨r, hr⟩ := Option.isSome_iff_exists.mp h1
    refine ⟨r, ?_, hmps r hr⟩
    apply List.mem_append.mpr
    right
    rw [hr]
    exact List.mem_singleton.mpr rfl
  · rintro ⟨g, hg, ht⟩
    rcases List.mem_append.mp hg with h3 | h3
    · have := hnv g h3
      rw [ht] at this
      exact Option.noConfusion this (fun h4 => GpuType.noConfusion h4)
    · cases hm : mpsOpt with
      | none => rw [hm] at h3; exact absurd h3 (List.not_mem_nil g)
      | some r => rfl

/-- C10: in every non-error response, `hasMps = true` iff the gpus list
contains an mps-tagged record. -/
theorem c10_hasMps_iff (env : SysEnv) (h : (GET env).error = none) :
    ((GET env).hasMps = true ↔
      ∃ g ∈ (GET env).gpus, g.type = some GpuType.mps) := by
  obtain ⟨p, pr, q, sb, sm, vs, sp⟩ := env
  cases pr with
  | true =>
    cases q with
    | error e =>
      have h2 : (some ("Failed to fetch GPU stats: " ++ e) : Option String) = none := h
      exact Option.noConfusion h2
    | ok s =>
      show ((if p = "darwin"
            then getMpsInfo ⟨p, true, Except.ok s, sb, sm, vs, sp⟩ else none).isSome = true ↔
          ∃ g ∈ (getGpuStats s).map (fun x : GpuRecord => { x with type := some GpuType.cuda }) ++
            (if p = "darwin"
              then getMpsInfo ⟨p, true, Except.ok s, sb, sm, vs, sp⟩ else none).toList,
            g.type = some GpuType.mps)
      refine hasMps_iff_mem_aux _ (fun g hg => type_of_mem_cudaTag hg) _ ?_
      intro r hr
      by_cases hp : p = "darwin"
      · rw [if_pos hp] at hr
        exact getMpsInfo_type hr
      · rw [if_neg hp] at hr
        exact Option.noConfusion hr
  | false =>
    show ((if p = "darwin"
          then getMpsInfo ⟨p, false, q, sb, sm, vs, sp⟩ else none).isSome = true ↔
        ∃ g ∈ ([] : List GpuRecord) ++
          (if p = "darwin"
            then getMpsInfo ⟨p, false, q, sb, sm, vs, sp⟩ else none).toList,
          g.type = some GpuType.mps)
    refine hasMps_iff_mem_aux [] (fun g hg => absurd hg (List.not_mem_nil g)) _ ?_
    intro r hr
    by_cases hp : p = "darwin"
    · rw [if_pos hp] at hr
      exact getMpsInfo_type hr
    · rw [if_neg hp] at hr
      exact Option.noConfusion hr

/-- C10 witness: the flag-record equivalence applied at the concrete Apple
environment, instantiated with its concrete mps record. -/
theorem c10_hasMps_iff_witness : (GET appleEnv).hasMps = true :=
  (c10_hasMps_iff appleEnv rfl).mpr
    ⟨mkMpsRecord "Apple M2 Pro" "17179869184" (some appleVmText) (some appleProfilerText),
     by decide, rfl⟩

end GpuRoute
